import Mathlib

/-!
Shallow embedding of the Jora Mall backend's order / cart / wallet /
payment-verification flow.

Money (prices, totals, wallet balances) is modelled in integer kobo-cents:
the JavaScript comparison `a.toFixed(2) !== b.toFixed(2)` on currency
values is equality of cent amounts, so prices are `Int` cents.  Stock and
quantities are `Int` as well, because the order route decrements stock via
an unconditional `$inc` that can in principle drive the stored value
negative.  Document ids are `Nat`.  Status fields are the literal strings
used by the source (`"pending"`, `"paid"`, ...).

Collections (products, users, carts, orders) are lists of records;
`findById` / `findOne` is first-match `List.find?`, an insert is an append
at the tail, and an update maps over the list replacing the matching
document, mirroring a single-document write.
-/

structure Product where
  pid : Nat
  pname : String
  price : Int
  imageUrl : String
  stock : Int
  deriving Repr, DecidableEq

structure CartItem where
  product : Nat
  name : String
  imageUrl : String
  price : Int
  quantity : Int
  deriving Repr, DecidableEq

structure Cart where
  user : Nat
  items : List CartItem
  deriving Repr, DecidableEq

structure User where
  uid : Nat
  walletBalance : Int
  walletTransactions : List String
  deriving Repr, DecidableEq

structure ShippingAddress where
  fullName : String
  email : String
  address : String
  city : String
  postalCode : String
  country : String
  deriving Repr, DecidableEq

structure Order where
  oid : Nat
  user : Nat
  items : List CartItem
  totalAmount : Int
  paymentMethod : String
  paymentStatus : String
  status : String
  paystackReference : Option String
  deriving Repr, DecidableEq

/-- The persistent store: the four collections plus the id the next
created order receives (Mongo object ids are fresh; a counter models
that). -/
structure St where
  products : List Product
  users : List User
  carts : List Cart
  orders : List Order
  nextOid : Nat
  deriving Repr, DecidableEq

def findProduct (st : St) (pid : Nat) : Option Product :=
  st.products.find? (fun p => p.pid == pid)

def findUser (st : St) (uid : Nat) : Option User :=
  st.users.find? (fun u => u.uid == uid)

def findCart (st : St) (uid : Nat) : Option Cart :=
  st.carts.find? (fun c => c.user == uid)

def findOrder (st : St) (oid : Nat) : Option Order :=
  st.orders.find? (fun o => o.oid == oid)

def updateProduct (st : St) (pid : Nat) (f : Product → Product) : St :=
  { st with products := st.products.map (fun p => if p.pid == pid then f p else p) }

def updateUser (st : St) (uid : Nat) (f : User → User) : St :=
  { st with users := st.users.map (fun u => if u.uid == uid then f u else u) }

def updateCart (st : St) (uid : Nat) (f : Cart → Cart) : St :=
  { st with carts := st.carts.map (fun c => if c.user == uid then f c else c) }

def updateOrder (st : St) (oid : Nat) (f : Order → Order) : St :=
  { st with orders := st.orders.map (fun o => if o.oid == oid then f o else o) }

/-! ## Cart operations (`server/routes/cartRoutes.js`) -/

/-- Errors of the add-to-cart handler, each carrying the number the
response message interpolates. `outOfStock a` is
`Not enough stock for NAME. Available: a`; `outOfStockAdd m` is
`Cannot add more NAME. Max available to add: m`. -/
inductive CartErr where
  | badRequest : CartErr
  | productNotFound : CartErr
  | outOfStock (available : Int) : CartErr
  | outOfStockAdd (maxAddable : Int) : CartErr
  deriving Repr, DecidableEq

/-- The stock-related number interpolated into the error message, when
the error carries one. -/
def CartErr.reported : CartErr → Option Int
  | .outOfStock a => some a
  | .outOfStockAdd m => some m
  | _ => none

def CartErr.httpStatus : CartErr → Nat
  | .productNotFound => 404
  | _ => 400

/-- Replace the first cart item for `pid`, mirroring
`cart.items[itemIndex] = ...` after a `findIndex`. -/
def updateFirstItem (pid : Nat) (f : CartItem → CartItem) :
    List CartItem → List CartItem
  | [] => []
  | it :: rest =>
      if it.product == pid then f it :: rest
      else it :: updateFirstItem pid f rest

/-- `POST /api/cart` — add `qty` of product `pid` to the cart of `uid`
(`cartRoutes.js`, add-to-cart handler). -/
def addItem (st : St) (uid : Nat) (pid : Nat) (qty : Int) :
    St × Except CartErr Cart :=
  if qty ≤ 0 then (st, .error .badRequest)
  else
    match findProduct st pid with
    | none => (st, .error .productNotFound)
    | some p =>
        if p.stock < qty then (st, .error (.outOfStock p.stock))
        else
          match findCart st uid with
          | some cart =>
              match cart.items.find? (fun it => it.product == pid) with
              | some existing =>
                  let newTotal := existing.quantity + qty
                  if p.stock < newTotal then
                    (st, .error (.outOfStockAdd (p.stock - existing.quantity)))
                  else
                    let items' :=
                      updateFirstItem pid (fun it => { it with quantity := newTotal })
                        cart.items
                    let cart' : Cart := { cart with items := items' }
                    (updateCart st uid (fun _ => cart'), .ok cart')
              | none =>
                  let cart' : Cart :=
                    { cart with items := cart.items ++
                        [⟨pid, p.pname, p.imageUrl, p.price, qty⟩] }
                  (updateCart st uid (fun _ => cart'), .ok cart')
          | none =>
              let cart' : Cart :=
                { user := uid, items := [⟨pid, p.pname, p.imageUrl, p.price, qty⟩] }
              ({ st with carts := st.carts ++ [cart'] }, .ok cart')

/-- `DELETE /api/cart` — empty the items array of the user's cart,
keeping the cart document; a missing cart is already-empty success
(`cartRoutes.js`, clear-cart handler).  The `Bool` records whether a
cart document existed. -/
def clearCart (st : St) (uid : Nat) : St × Bool :=
  match findCart st uid with
  | none => (st, false)
  | some _ => (updateCart st uid (fun c => { c with items := [] }), true)

/-- Quantity of product `pid` in `uid`'s cart as the add-to-cart handler
sees it (0 when there is no cart or no line for the product). -/
def inCartQty (st : St) (uid : Nat) (pid : Nat) : Int :=
  match findCart st uid with
  | none => 0
  | some cart =>
      match cart.items.find? (fun it => it.product == pid) with
      | none => 0
      | some it => it.quantity

/-! ## Order creation -/

structure ReqItem where
  product : Nat
  name : String
  imageUrl : String
  price : Int
  quantity : Int
  deriving Repr, DecidableEq

/-- The shipping-address completeness check of the controller:
`fullName`, `address`, `city`, `postalCode`, `country` must all be
present (JS truthiness of a string: non-empty). -/
def addressComplete (a : ShippingAddress) : Bool :=
  a.fullName != "" && a.address != "" && a.city != "" &&
    a.postalCode != "" && a.country != ""

def mkOrderItems (items : List ReqItem) : List CartItem :=
  items.map (fun it => ⟨it.product, it.name, it.imageUrl, it.price, it.quantity⟩)

structure OrderReq where
  items : List ReqItem
  totalAmount : Int
  shippingAddress : ShippingAddress
  paymentMethod : String
  deriving Repr, DecidableEq

inductive OrderErr where
  | noItems : OrderErr
  | badTotal : OrderErr
  | badAddress : OrderErr
  | userNotFound : OrderErr
  | productNotFound (name : String) : OrderErr
  | insufficientStock (name : String) (available : Int) : OrderErr
  | priceMismatch (name : String) : OrderErr
  | insufficientFunds : OrderErr
  deriving Repr, DecidableEq

def OrderErr.httpStatus : OrderErr → Nat
  | .userNotFound => 404
  | .productNotFound _ => 404
  | _ => 400

/-- The per-item loop of the controller's `createOrder`
(`controllers/orderController.js`): each item is validated and, if it
passes, the product's stock is decremented and saved at once, before the
next item is examined. -/
def checkAndDecItems (st : St) : List ReqItem → St × Option OrderErr
  | [] => (st, none)
  | it :: rest =>
      match findProduct st it.product with
      | none => (st, some (.productNotFound it.name))
      | some p =>
          if p.stock < it.quantity then
            (st, some (.insufficientStock p.pname p.stock))
          else if p.price ≠ it.price then
            (st, some (.priceMismatch it.name))
          else
            checkAndDecItems
              (updateProduct st it.product (fun q => { q with stock := q.stock - it.quantity }))
              rest

/-- `POST /api/orders` as implemented by the controller
(`controllers/orderController.js`, `createOrder`): validation of
items/total/address/user, per-item validate-and-decrement, wallet branch
(insufficient-funds check, debit, paid/completed order), then
`Order.create`.  The controller's cart clearing is commented out in the
source, so the cart is untouched here. -/
def createOrder (st : St) (uid : Nat) (req : OrderReq) :
    St × Except OrderErr Order :=
  if req.items.isEmpty then (st, .error .noItems)
  else if req.totalAmount ≤ 0 then (st, .error .badTotal)
  else if ¬ addressComplete req.shippingAddress then (st, .error .badAddress)
  else
    match findUser st uid with
    | none => (st, .error .userNotFound)
    | some user =>
        match checkAndDecItems st req.items with
        | (st1, some e) => (st1, .error e)
        | (st1, none) =>
            if req.paymentMethod == "wallet" then
              if user.walletBalance < req.totalAmount then
                (st1, .error .insufficientFunds)
              else
                let st2 := updateUser st1 uid
                  (fun u => { u with walletBalance := user.walletBalance - req.totalAmount })
                let order : Order :=
                  { oid := st2.nextOid, user := uid, items := mkOrderItems req.items,
                    totalAmount := req.totalAmount, paymentMethod := "wallet",
                    paymentStatus := "paid", status := "completed",
                    paystackReference := some "WALLET_PAYMENT" }
                ({ st2 with orders := st2.orders ++ [order], nextOid := st2.nextOid + 1 },
                 .ok order)
            else
              let order : Order :=
                { oid := st1.nextOid, user := uid, items := mkOrderItems req.items,
                  totalAmount := req.totalAmount,
                  paymentMethod := if req.paymentMethod == "" then "paystack" else req.paymentMethod,
                  paymentStatus := "pending", status := "pending",
                  paystackReference := none }
              ({ st1 with orders := st1.orders ++ [order], nextOid := st1.nextOid + 1 },
               .ok order)

/-! ## Order creation, route variant (`server/routes/orders.js`) -/

inductive RouteErr where
  | missingDetails : RouteErr
  | productNotFound (name : String) : RouteErr
  | outOfStock (name : String) (available : Int) : RouteErr
  | priceMismatch (name : String) : RouteErr
  deriving Repr, DecidableEq

def RouteErr.httpStatus : RouteErr → Nat
  | .productNotFound _ => 404
  | _ => 400

/-- The route handler's validation loop: pure checks against the current
store, no mutation. -/
def validateItems (st : St) : List ReqItem → Option RouteErr
  | [] => none
  | it :: rest =>
      match findProduct st it.product with
      | none => some (.productNotFound it.name)
      | some p =>
          if p.stock < it.quantity then some (.outOfStock p.pname p.stock)
          else if p.price ≠ it.price then some (.priceMismatch it.name)
          else validateItems st rest

/-- `findByIdAndUpdate(..., { $inc: { stock: -q } })` over every ordered
item, in order. -/
def decAllStock (st : St) (items : List ReqItem) : St :=
  items.foldl
    (fun s it => updateProduct s it.product (fun q => { q with stock := q.stock - it.quantity }))
    st

/-- `Cart.findOneAndDelete({ user })`: remove the first cart document
owned by `uid`. -/
def removeFirstCart (uid : Nat) : List Cart → List Cart
  | [] => []
  | c :: rest => if c.user == uid then rest else c :: removeFirstCart uid rest

structure RouteReq where
  items : List ReqItem
  shippingAddress : Option ShippingAddress
  totalAmount : Int
  deriving Repr, DecidableEq

/-- `POST /api/orders` as implemented inline in `routes/orders.js`:
validate everything first (no mutation), then create the order, then
decrement all stock, then delete the user's cart document. -/
def createOrderRoute (st : St) (uid : Nat) (req : RouteReq) :
    St × Except RouteErr Order :=
  if req.items.isEmpty || req.shippingAddress.isNone || req.totalAmount == 0 then
    (st, .error .missingDetails)
  else
    match validateItems st req.items with
    | some e => (st, .error e)
    | none =>
        let order : Order :=
          { oid := st.nextOid, user := uid, items := mkOrderItems req.items,
            totalAmount := req.totalAmount, paymentMethod := "Paystack",
            paymentStatus := "pending", status := "pending",
            paystackReference := none }
        let st1 : St :=
          { st with orders := st.orders ++ [order], nextOid := st.nextOid + 1 }
        let st2 := decAllStock st1 req.items
        let st3 : St := { st2 with carts := removeFirstCart uid st2.carts }
        (st3, .ok order)

/-! ## Admin fulfillment-status update (`routes/orders.js`, `PUT /:id/status`) -/

inductive StatusErr where
  | statusRequired : StatusErr
  | orderNotFound : StatusErr
  | invalidStatus : StatusErr
  deriving Repr, DecidableEq

def StatusErr.httpStatus : StatusErr → Nat
  | .orderNotFound => 404
  | _ => 400

def allowedStatuses : List String :=
  ["pending", "completed", "shipped", "delivered", "cancelled"]

/-- `PUT /api/orders/:id/status`: require a status, find the order,
check the target against the fixed enumerated list, and overwrite
`order.status`.  The current status is never consulted. -/
def updateOrderStatus (st : St) (oid : Nat) (status : String) :
    St × Except StatusErr Order :=
  if status == "" then (st, .error .statusRequired)
  else
    match findOrder st oid with
    | none => (st, .error .orderNotFound)
    | some o =>
        if ¬ allowedStatuses.contains status then (st, .error .invalidStatus)
        else
          let o' : Order := { o with status := status }
          (updateOrder st oid (fun _ => o'), .ok o')

/-! ## Gateway verification (`routes/paystack.js` verify handler, and
`controllers/walletController.js` `verifyAddFunds`) -/

/-- What the gateway's verify endpoint reports for a reference: overall
success (`status && data.status === 'success'`), the amount in kobo, and
the metadata attached at initialization. -/
structure GatewayTx where
  ok : Bool
  amount : Int
  metaOrderId : Nat
  metaUserId : Nat
  metaPurpose : String
  deriving Repr, DecidableEq

inductive PsResult where
  | missingRef : PsResult
  | gatewayFailed : PsResult
  | forbidden : PsResult
  | orderNotFound : PsResult
  | verified (o : Order) : PsResult
  | alreadyProcessed (o : Order) : PsResult
  deriving Repr, DecidableEq

def PsResult.httpStatus : PsResult → Nat
  | .missingRef => 400
  | .gatewayFailed => 400
  | .forbidden => 403
  | .orderNotFound => 404
  | .verified _ => 200
  | .alreadyProcessed _ => 200

/-- `POST /api/paystack/verify`: check the reference is present, call the
gateway, reject non-success, reject a metadata user-id differing from the
caller before any order lookup, then update the order only when its
`paymentStatus` is still `pending`. -/
def paystackVerify (gw : String → GatewayTx) (st : St) (callerUid : Nat)
    (ref : String) : St × PsResult :=
  if ref == "" then (st, .missingRef)
  else
    let tx := gw ref
    if ¬ tx.ok then (st, .gatewayFailed)
    else if tx.metaUserId ≠ callerUid then (st, .forbidden)
    else
      match findOrder st tx.metaOrderId with
      | none => (st, .orderNotFound)
      | some o =>
          if o.paymentStatus == "pending" then
            let o' : Order :=
              { o with paymentStatus := "paid", status := "completed",
                       paystackReference := some ref }
            (updateOrder st tx.metaOrderId (fun _ => o'), .verified o')
          else
            (st, .alreadyProcessed o)

inductive WalletErr where
  | refRequired : WalletErr
  | gatewayFailed : WalletErr
  | metaMismatch : WalletErr
  | userNotFound : WalletErr
  | alreadyProcessed : WalletErr
  deriving Repr, DecidableEq

/-- HTTP status of each wallet-verification error as raised by
`verifyAddFunds`; the metadata mismatch is raised as 401. -/
def WalletErr.httpStatus : WalletErr → Nat
  | .refRequired => 400
  | .gatewayFailed => 400
  | .metaMismatch => 401
  | .userNotFound => 404
  | .alreadyProcessed => 409

/-- `POST /api/wallet/verify-add-funds`
(`controllers/walletController.js`, `verifyAddFunds`): gateway check,
metadata purpose/user check, duplicate-reference guard against
`user.walletTransactions`, then a single user-document write crediting
`amount / 100` and appending the reference.  Returns the new balance. -/
def verifyAddFunds (gw : String → GatewayTx) (st : St) (uid : Nat)
    (ref : String) : St × Except WalletErr Int :=
  if ref == "" then (st, .error .refRequired)
  else
    let tx := gw ref
    if ¬ tx.ok then (st, .error .gatewayFailed)
    else if tx.metaPurpose ≠ "wallet_topup" ∨ tx.metaUserId ≠ uid then
      (st, .error .metaMismatch)
    else
      let amountPaid := tx.amount / 100
      match findUser st uid with
      | none => (st, .error .userNotFound)
      | some user =>
          if user.walletTransactions.contains ref then
            (st, .error .alreadyProcessed)
          else
            let user' : User :=
              { user with walletBalance := user.walletBalance + amountPaid,
                          walletTransactions := user.walletTransactions ++ [ref] }
            (updateUser st uid (fun _ => user'), .ok user'.walletBalance)

/-! ## Concrete stores and gateways used in the verification -/

def addrDemo : ShippingAddress := ⟨"Jo", "jo@x.y", "1 Way", "Lagos", "100", "NG"⟩

def c1St : St :=
  { products := [⟨1, "Gadget", 100, "", 5⟩],
    users := [⟨7, 50, []⟩], carts := [], orders := [], nextOid := 0 }

def c1Req : OrderReq :=
  { items := [⟨1, "Gadget", "", 100, 2⟩], totalAmount := 100,
    shippingAddress := addrDemo, paymentMethod := "wallet" }

def c2Gw : String → GatewayTx := fun r =>
  if r = "TOPREF" then ⟨true, 50000, 0, 7, "wallet_topup"⟩ else ⟨false, 0, 0, 0, ""⟩

def c2St : St :=
  { products := [], users := [⟨7, 100, []⟩], carts := [], orders := [], nextOid := 0 }

def psGw : String → GatewayTx := fun r =>
  if r = "PAYREF" then ⟨true, 10000, 1, 7, ""⟩ else ⟨false, 0, 0, 0, ""⟩

def paidOrder : Order := ⟨1, 7, [], 100, "Paystack", "paid", "completed", some "OLD"⟩

def c4St : St := ⟨[], [], [], [paidOrder], 2⟩

def failedOrder : Order := ⟨1, 7, [], 100, "Paystack", "failed", "pending", none⟩

def c10St : St := ⟨[], [], [], [failedOrder], 2⟩

/-- Every order that is `paid` in `st` is still found, and still `paid`,
in `st'`. -/
def paidPreserved (st st' : St) : Prop :=
  ∀ oid o, findOrder st oid = some o → o.paymentStatus = "paid" →
    ∃ o', findOrder st' oid = some o' ∧ o'.paymentStatus = "paid"

def c3Ord : Order := ⟨1, 7, [], 100, "Paystack", "paid", "delivered", some "R3"⟩

def c3St : St := ⟨[], [], [], [c3Ord], 2⟩

def c6Gw : String → GatewayTx := fun r =>
  if r = "TOPREF2" then ⟨true, 50000, 0, 7, "order_payment"⟩ else ⟨false, 0, 0, 0, ""⟩

def c6St : St := ⟨[], [⟨7, 100, []⟩], [], [], 0⟩

def c7St : St :=
  ⟨[⟨1, "Gadget", 100, "", 5⟩], [], [⟨7, [⟨1, "Gadget", "", 100, 3⟩]⟩], [], 0⟩

def c8Ord : Order := ⟨1, 7, [], 100, "Paystack", "paid", "delivered", some "R8"⟩

def c8St : St := ⟨[], [], [], [c8Ord], 2⟩

/-- At most one cart document per user, which the Cart schema enforces
with a unique index on `user`. -/
def noDupCartUsers : List Cart → Bool
  | [] => true
  | c :: rest => rest.all (fun d => d.user != c.user) && noDupCartUsers rest

def c9St : St :=
  ⟨[⟨1, "Gadget", 100, "", 5⟩], [⟨7, 50, []⟩],
   [⟨7, [⟨1, "Gadget", "", 100, 2⟩]⟩], [], 0⟩

def c9Req : RouteReq := ⟨[⟨1, "Gadget", "", 100, 2⟩], some addrDemo, 200⟩

/-! ## Generic lemmas about first-match lookup under a single-document
update -/

/-- Updating the documents matched by `p` with an update that keeps them
matched leaves a successful first-match lookup pointing at the updated
document. -/
theorem find_update_of_found {α : Type} (p : α → Bool) (f : α → α)
    (l : List α) (a : α) (h : l.find? p = some a) (hf : p (f a) = true) :
    (l.map fun x => if p x then f x else x).find? p = some (f a) := by
  induction l with
  | nil => simp at h
  | cons x t ih =>
      by_cases hx : p x = true
      · rw [List.find?_cons_of_pos _ hx] at h
        cases h
        simp [hx, hf]
      · rw [List.find?_cons_of_neg _ (by simp [hx])] at h
        have hx' : p (if p x = true then f x else x) = false := by
          simp [hx]
        simp only [List.map_cons]
        rw [List.find?_cons_of_neg _ (by simp [hx']), ih h]

/-- A single-document update whose replacement leaves every document's
`q`-membership unchanged commutes with first-match lookup by `q`. -/
theorem find_map_ite_pres {α : Type} (p q : α → Bool) (f : α → α)
    (l : List α) (hq : ∀ x, q (if p x then f x else x) = q x) :
    (l.map fun x => if p x then f x else x).find? q =
      (l.find? q).map fun x => if p x then f x else x := by
  induction l with
  | nil => rfl
  | cons x t ih =>
      by_cases hx : q x = true
      · have h1 : q (if p x = true then f x else x) = true := by rw [hq]; exact hx
        simp only [List.map_cons]
        rw [List.find?_cons_of_pos _ h1, List.find?_cons_of_pos _ hx]
        rfl
      · have h1 : q (if p x = true then f x else x) = false := by
          rw [hq]; simpa using hx
        simp only [List.map_cons]
        rw [List.find?_cons_of_neg _ (by simp [h1]),
            List.find?_cons_of_neg _ (by simp [hx]), ih]

/-! ## Framing lemmas: which collections each write leaves untouched -/

theorem checkAndDecItems_frame (items : List ReqItem) (st : St) :
    (checkAndDecItems st items).1.users = st.users ∧
    (checkAndDecItems st items).1.carts = st.carts ∧
    (checkAndDecItems st items).1.orders = st.orders ∧
    (checkAndDecItems st items).1.nextOid = st.nextOid := by
  induction items generalizing st with
  | nil => exact ⟨rfl, rfl, rfl, rfl⟩
  | cons it rest ih =>
      unfold checkAndDecItems
      cases findProduct st it.product with
      | none => exact ⟨rfl, rfl, rfl, rfl⟩
      | some p =>
          dsimp only
          split
          · exact ⟨rfl, rfl, rfl, rfl⟩
          · split
            · exact ⟨rfl, rfl, rfl, rfl⟩
            · exact ih _

theorem decAllStock_frame (items : List ReqItem) (st : St) :
    (decAllStock st items).users = st.users ∧
    (decAllStock st items).carts = st.carts ∧
    (decAllStock st items).orders = st.orders ∧
    (decAllStock st items).nextOid = st.nextOid := by
  induction items generalizing st with
  | nil => exact ⟨rfl, rfl, rfl, rfl⟩
  | cons it rest ih => exact ih _

/-- Looking up the user just written by a single-user-document update. -/
theorem findUser_updateUser (st : St) (uid : Nat) (f : User → User)
    (u : User) (h : findUser st uid = some u) (hf : (f u).uid = u.uid) :
    findUser (updateUser st uid f) uid = some (f u) := by
  unfold findUser updateUser at *
  have hu := List.find?_some h
  exact find_update_of_found _ f _ u h (by simp_all)

/-- Looking up the cart just written by a single-cart-document update. -/
theorem findCart_updateCart (st : St) (uid : Nat) (f : Cart → Cart)
    (c : Cart) (h : findCart st uid = some c) (hf : (f c).user = c.user) :
    findCart (updateCart st uid f) uid = some (f c) := by
  unfold findCart updateCart at *
  have hu := List.find?_some h
  exact find_update_of_found _ f _ c h (by simp_all)

/-- An order write that keeps the written document's id fixed acts on
first-match order lookup as a pointwise conditional replacement. -/
theorem findOrder_updateOrder_const (st : St) (k : Nat) (o' : Order)
    (ho : o'.oid = k) (oid : Nat) :
    findOrder (updateOrder st k (fun _ => o')) oid =
      (findOrder st oid).map fun x => if x.oid == k then o' else x := by
  unfold findOrder updateOrder
  exact find_map_ite_pres _ _ _ _ (by
    intro x
    by_cases hx : (x.oid == k) = true
    · have : x.oid = k := by simpa using hx
      simp [hx, ho, this]
    · simp [hx])

/-! ## C1 — checkout effects versus validation order -/

/-- Claim C1, counterexample: a wallet checkout that fails validation
(InsufficientFunds: balance 50 < total 100) nevertheless leaves the
ordered product's stock decremented from 5 to 3, refuting the claim that
no product's stock is decremented when a validation fails. -/
theorem C1_checkout_stock_counterexample :
    (createOrder c1St 7 c1Req).2 = .error .insufficientFunds ∧
    findProduct c1St 1 = some ⟨1, "Gadget", 100, "", 5⟩ ∧
    findProduct (createOrder c1St 7 c1Req).1 1 = some ⟨1, "Gadget", 100, "", 3⟩ := by
  refine ⟨rfl, rfl, rfl⟩

/-- Claim C1, amended: on any `createOrder` validation failure no order is
created, no user document (hence no wallet balance) changes, no cart
changes and the order-id counter is untouched; only product stock may
already have been decremented, because the controller decrements each
item's stock as soon as that item passes its own checks, before later
items or the wallet balance are validated. -/
theorem C1_checkout_effects (st : St) (uid : Nat) (req : OrderReq)
    (st' : St) (e : OrderErr)
    (h : createOrder st uid req = (st', .error e)) :
    st'.orders = st.orders ∧ st'.users = st.users ∧
    st'.carts = st.carts ∧ st'.nextOid = st.nextOid := by
  unfold createOrder at h
  split at h
  · simp only [Prod.mk.injEq] at h
    obtain ⟨h1, -⟩ := h
    subst h1
    exact ⟨rfl, rfl, rfl, rfl⟩
  · split at h
    · simp only [Prod.mk.injEq] at h
      obtain ⟨h1, -⟩ := h
      subst h1
      exact ⟨rfl, rfl, rfl, rfl⟩
    · split at h
      · simp only [Prod.mk.injEq] at h
        obtain ⟨h1, -⟩ := h
        subst h1
        exact ⟨rfl, rfl, rfl, rfl⟩
      · split at h
        · simp only [Prod.mk.injEq] at h
          obtain ⟨h1, -⟩ := h
          subst h1
          exact ⟨rfl, rfl, rfl, rfl⟩
        · rename_i user huser
          split at h
          · rename_i st1 e' heq
            simp only [Prod.mk.injEq] at h
            obtain ⟨h1, -⟩ := h
            subst h1
            have hf := checkAndDecItems_frame req.items st
            rw [heq] at hf
            exact ⟨hf.2.2.1, hf.1, hf.2.1, hf.2.2.2⟩
          · rename_i st1 heq
            split at h
            · split at h
              · simp only [Prod.mk.injEq] at h
                obtain ⟨h1, -⟩ := h
                subst h1
                have hf := checkAndDecItems_frame req.items st
                rw [heq] at hf
                exact ⟨hf.2.2.1, hf.1, hf.2.1, hf.2.2.2⟩
              · simp at h
            · simp at h

/-- Claim C1 witness: the amended theorem applied to the concrete failing
wallet checkout. -/
theorem C1_checkout_effects_witness :
    (createOrder c1St 7 c1Req).1.orders = c1St.orders ∧
    (createOrder c1St 7 c1Req).1.users = c1St.users ∧
    (createOrder c1St 7 c1Req).1.carts = c1St.carts ∧
    (createOrder c1St 7 c1Req).1.nextOid = c1St.nextOid :=
  C1_checkout_effects c1St 7 c1Req (createOrder c1St 7 c1Req).1
    .insufficientFunds rfl

/-! ## C2 — wallet top-up duplicate guard -/

/-- Claim C2: when a `verifyAddFunds` call succeeds, the user's wallet is
credited with the gateway-reported amount and the reference recorded;
repeating the call with the same reference changes nothing and fails
with the 409 Conflict error (`alreadyProcessed`). -/
theorem C2_topup_idempotent (gw : String → GatewayTx) (st : St) (uid : Nat)
    (ref : String) (st1 : St) (amt : Int)
    (h : verifyAddFunds gw st uid ref = (st1, .ok amt)) :
    (∃ u, findUser st uid = some u ∧
       findUser st1 uid = some
         { u with walletBalance := u.walletBalance + (gw ref).amount / 100,
                  walletTransactions := u.walletTransactions ++ [ref] } ∧
       amt = u.walletBalance + (gw ref).amount / 100) ∧
    verifyAddFunds gw st1 uid ref = (st1, .error .alreadyProcessed) := by
  unfold verifyAddFunds at h
  split at h
  · simp at h
  · rename_i hr
    dsimp only at h
    split at h
    · simp at h
    · rename_i hok
      split at h
      · simp at h
      · rename_i hmeta
        split at h
        · simp at h
        · rename_i user huser
          split at h
          · simp at h
          · rename_i hdup
            simp only [Prod.mk.injEq, Except.ok.injEq] at h
            obtain ⟨h1, h2⟩ := h
            have hfind2 : findUser st1 uid = some
                { user with
                  walletBalance := user.walletBalance + (gw ref).amount / 100,
                  walletTransactions := user.walletTransactions ++ [ref] } := by
              rw [← h1]
              exact findUser_updateUser st uid _ user huser rfl
            refine ⟨⟨user, huser, hfind2, h2.symm⟩, ?_⟩
            unfold verifyAddFunds
            rw [if_neg hr, if_neg hok, if_neg hmeta, hfind2]
            simp

/-- Claim C2 witness: a concrete successful top-up of 500 (50000 kobo) onto a
balance of 100, then the identical second call conflicting. -/
theorem C2_topup_idempotent_witness :
    (∃ u, findUser c2St 7 = some u ∧
       findUser (verifyAddFunds c2Gw c2St 7 "TOPREF").1 7 = some
         { u with walletBalance := u.walletBalance + (c2Gw "TOPREF").amount / 100,
                  walletTransactions := u.walletTransactions ++ ["TOPREF"] } ∧
       (600 : Int) = u.walletBalance + (c2Gw "TOPREF").amount / 100) ∧
    verifyAddFunds c2Gw (verifyAddFunds c2Gw c2St 7 "TOPREF").1 7 "TOPREF"
      = ((verifyAddFunds c2Gw c2St 7 "TOPREF").1, .error .alreadyProcessed) :=
  C2_topup_idempotent c2Gw c2St 7 "TOPREF" (verifyAddFunds c2Gw c2St 7 "TOPREF").1 600 rfl

/-! ## C5 / C4 / C10 — gateway payment verification -/

/-- Claim C5: a gateway-success verification whose metadata user id differs
from the caller fails with 403 Forbidden before any order lookup, and
the store is unchanged. -/
theorem C5_verify_forbidden_on_user_mismatch (gw : String → GatewayTx)
    (st : St) (caller : Nat) (ref : String)
    (h1 : (ref == "") = false) (h2 : (gw ref).ok = true)
    (h3 : (gw ref).metaUserId ≠ caller) :
    paystackVerify gw st caller ref = (st, .forbidden) ∧
    PsResult.forbidden.httpStatus = 403 := by
  refine ⟨?_, rfl⟩
  unfold paystackVerify
  rw [if_neg (by simp [h1])]
  dsimp only
  rw [if_neg (by simp [h2]), if_pos h3]

/-- Claim C5 witness: caller 9 presenting a reference whose metadata names
user 7. -/
theorem C5_verify_forbidden_witness :
    paystackVerify psGw c4St 9 "PAYREF" = (c4St, .forbidden) ∧
    PsResult.forbidden.httpStatus = 403 :=
  C5_verify_forbidden_on_user_mismatch psGw c4St 9 "PAYREF" rfl rfl (by decide)

/-- Claim C4: a gateway-success verification against an order already `paid`
returns the 200 already-processed result and leaves the store — in
particular the order's `paymentStatus`, `status` and stored reference —
unchanged. -/
theorem C4_verify_idempotent_on_paid (gw : String → GatewayTx) (st : St)
    (caller : Nat) (ref : String) (o : Order)
    (h1 : (ref == "") = false) (h2 : (gw ref).ok = true)
    (h3 : (gw ref).metaUserId = caller)
    (h4 : findOrder st (gw ref).metaOrderId = some o)
    (h5 : o.paymentStatus = "paid") :
    paystackVerify gw st caller ref = (st, .alreadyProcessed o) ∧
    (PsResult.alreadyProcessed o).httpStatus = 200 := by
  refine ⟨?_, rfl⟩
  unfold paystackVerify
  rw [if_neg (by simp [h1])]
  dsimp only
  rw [if_neg (by simp [h2]), if_neg (by simp [h3]), h4]
  dsimp only
  rw [if_neg (by rw [h5]; decide)]

/-- Claim C4 witness: verifying a reference for the already-paid order 1. -/
theorem C4_verify_idempotent_witness :
    paystackVerify psGw c4St 7 "PAYREF" = (c4St, .alreadyProcessed paidOrder) ∧
    (PsResult.alreadyProcessed paidOrder).httpStatus = 200 :=
  C4_verify_idempotent_on_paid psGw c4St 7 "PAYREF" paidOrder rfl rfl rfl rfl rfl

/-- Claim C10: once the reference, gateway result and metadata checks pass,
the verify endpoint applies its effects exactly when the order's
`paymentStatus` is `pending`; any other value — `failed` included —
yields the 200 already-processed response with the store unchanged, so a
failed order is never promoted to paid here. -/
theorem C10_verify_effects_iff_pending (gw : String → GatewayTx) (st : St)
    (caller : Nat) (ref : String) (o : Order)
    (h1 : (ref == "") = false) (h2 : (gw ref).ok = true)
    (h3 : (gw ref).metaUserId = caller)
    (h4 : findOrder st (gw ref).metaOrderId = some o) :
    (o.paymentStatus ≠ "pending" →
       paystackVerify gw st caller ref = (st, .alreadyProcessed o) ∧
       (PsResult.alreadyProcessed o).httpStatus = 200) ∧
    (o.paymentStatus = "pending" →
       paystackVerify gw st caller ref =
         (updateOrder st (gw ref).metaOrderId
            (fun _ => { o with paymentStatus := "paid", status := "completed",
                               paystackReference := some ref }),
          .verified { o with paymentStatus := "paid", status := "completed",
                             paystackReference := some ref })) := by
  constructor
  · intro hne
    refine ⟨?_, rfl⟩
    unfold paystackVerify
    rw [if_neg (by simp [h1])]
    dsimp only
    rw [if_neg (by simp [h2]), if_neg (by simp [h3]), h4]
    dsimp only
    rw [if_neg (by simp [hne])]
  · intro hpe
    unfold paystackVerify
    rw [if_neg (by simp [h1])]
    dsimp only
    rw [if_neg (by simp [h2]), if_neg (by simp [h3]), h4]
    dsimp only
    rw [if_pos (by rw [hpe]; decide)]

/-- Claim C10 witness: verifying a gateway-success reference against the
failed order 1 leaves everything unchanged with a 200 response. -/
theorem C10_verify_effects_witness :
    paystackVerify psGw c10St 7 "PAYREF" = (c10St, .alreadyProcessed failedOrder) ∧
    (PsResult.alreadyProcessed failedOrder).httpStatus = 200 :=
  (C10_verify_effects_iff_pending psGw c10St 7 "PAYREF" failedOrder
    rfl rfl rfl rfl).1 (by decide)

/-! ## C3 — paid orders never revert to pending -/

theorem paidPreserved_of_orders_eq (st st' : St)
    (h : st'.orders = st.orders) : paidPreserved st st' := by
  intro oid o hfind hpaid
  refine ⟨o, ?_, hpaid⟩
  unfold findOrder at *
  rw [h]
  exact hfind

theorem paidPreserved_append (st st' : St) (l : List Order)
    (h : st'.orders = st.orders ++ l) : paidPreserved st st' := by
  intro oid o hfind hpaid
  refine ⟨o, ?_, hpaid⟩
  unfold findOrder at *
  rw [h, List.find?_append, hfind]
  rfl

theorem paidPreserved_updateOrder_const (st : St) (k : Nat) (o' : Order)
    (ho : o'.oid = k)
    (hps : o'.paymentStatus = "paid" ∨
      (∃ o0, findOrder st k = some o0 ∧ o'.paymentStatus = o0.paymentStatus)) :
    paidPreserved st (updateOrder st k (fun _ => o')) := by
  intro oid o hfind hpaid
  rw [findOrder_updateOrder_const st k o' ho oid, hfind]
  by_cases hk : o.oid = k
  · refine ⟨o', by simp [hk], ?_⟩
    cases hps with
    | inl h => exact h
    | inr h =>
        obtain ⟨o0, h0, he⟩ := h
        have hoid : o.oid = oid := by
          simpa using List.find?_some hfind
        rw [← hk, hoid] at h0
        have ho0 : o0 = o := Option.some_inj.mp (h0.symm.trans hfind)
        rw [he, ho0]
        exact hpaid
  · exact ⟨o, by simp [hk], hpaid⟩

/-- An operation that only appends documents to the orders collection
preserves paid orders. -/
theorem paidPreserved_of_prefix_orders (st st' : St)
    (h : st.orders <+: st'.orders) : paidPreserved st st' := by
  intro oid o hfind hpaid
  obtain ⟨l, hl⟩ := h
  refine ⟨o, ?_, hpaid⟩
  unfold findOrder at *
  rw [← hl, List.find?_append, hfind]
  rfl

/-- Claim C3: every operation the API offers on orders — the admin
fulfillment-status update, gateway payment verification, and both
checkout implementations — keeps every already-`paid` order present and
`paid`; in particular none of them ever sets a paid order's
`paymentStatus` back to `pending`. -/
theorem C3_paid_never_reverts (st : St) :
    (∀ oid status, paidPreserved st (updateOrderStatus st oid status).1) ∧
    (∀ gw caller ref, paidPreserved st (paystackVerify gw st caller ref).1) ∧
    (∀ uid req, paidPreserved st (createOrder st uid req).1) ∧
    (∀ uid req, paidPreserved st (createOrderRoute st uid req).1) := by
  refine ⟨?_, ?_, ?_, ?_⟩
  · intro oid status
    unfold updateOrderStatus
    split
    · exact paidPreserved_of_orders_eq st st rfl
    · split
      · exact paidPreserved_of_orders_eq st st rfl
      · rename_i o heq
        split
        · exact paidPreserved_of_orders_eq st st rfl
        · dsimp only
          apply paidPreserved_updateOrder_const
          · have h2 := heq
            unfold findOrder at h2
            simpa using List.find?_some h2
          · exact Or.inr ⟨o, heq, rfl⟩
  · intro gw caller ref
    unfold paystackVerify
    split
    · exact paidPreserved_of_orders_eq st st rfl
    · dsimp only
      split
      · exact paidPreserved_of_orders_eq st st rfl
      · split
        · exact paidPreserved_of_orders_eq st st rfl
        · split
          · exact paidPreserved_of_orders_eq st st rfl
          · rename_i o heq
            split
            · dsimp only
              apply paidPreserved_updateOrder_const
              · have h2 := heq
                unfold findOrder at h2
                simpa using List.find?_some h2
              · exact Or.inl rfl
            · exact paidPreserved_of_orders_eq st st rfl
  · intro uid req
    unfold createOrder
    split
    · exact paidPreserved_of_orders_eq st st rfl
    · split
      · exact paidPreserved_of_orders_eq st st rfl
      · split
        · exact paidPreserved_of_orders_eq st st rfl
        · split
          · exact paidPreserved_of_orders_eq st st rfl
          · rename_i user huser
            split
            · rename_i st1 e heq
              have hf := checkAndDecItems_frame req.items st
              rw [heq] at hf
              exact paidPreserved_of_orders_eq st st1 hf.2.2.1
            · rename_i st1 heq
              have hf := checkAndDecItems_frame req.items st
              rw [heq] at hf
              have hords : st1.orders = st.orders := hf.2.2.1
              split
              · split
                · exact paidPreserved_of_orders_eq st st1 hords
                · refine paidPreserved_of_prefix_orders st _ ?_
                  show st.orders <+: st1.orders ++ _
                  rw [hords]
                  exact ⟨_, rfl⟩
              · refine paidPreserved_of_prefix_orders st _ ?_
                show st.orders <+: st1.orders ++ _
                rw [hords]
                exact ⟨_, rfl⟩
  · intro uid req
    unfold createOrderRoute
    split
    · exact paidPreserved_of_orders_eq st st rfl
    · split
      · exact paidPreserved_of_orders_eq st st rfl
      · dsimp only
        refine paidPreserved_of_prefix_orders st _ ?_
        show st.orders <+: (decAllStock _ req.items).orders
        rw [(decAllStock_frame req.items _).2.2.1]
        exact ⟨_, rfl⟩

/-- Claim C3 witness: even the admin status write `delivered → pending` on a
paid order leaves its `paymentStatus` equal to `paid`. -/
theorem C3_paid_never_reverts_witness :
    ∃ o', findOrder (updateOrderStatus c3St 1 "pending").1 1 = some o' ∧
      o'.paymentStatus = "paid" :=
  (C3_paid_never_reverts c3St).1 1 "pending" 1 c3Ord rfl rfl

/-! ## C6 — wallet top-up metadata mismatch -/

/-- Claim C6, counterexample: a gateway-success top-up verification whose
metadata purpose is not `wallet_topup` fails with HTTP 401, not the 403
the claim states (the store is unchanged, as claimed). -/
theorem C6_topup_403_counterexample :
    (verifyAddFunds c6Gw c6St 7 "TOPREF2").2 = .error .metaMismatch ∧
    WalletErr.metaMismatch.httpStatus = 401 ∧
    WalletErr.metaMismatch.httpStatus ≠ 403 ∧
    (verifyAddFunds c6Gw c6St 7 "TOPREF2").1 = c6St := by
  refine ⟨rfl, rfl, by decide, rfl⟩

/-- Claim C6, amended: when the gateway reports success but the metadata
purpose is not `wallet_topup` or the metadata user differs from the
caller, `verifyAddFunds` fails with the metadata-mismatch error —
raised with HTTP status 401, not 403 — and the store (hence the wallet
balance) is unchanged. -/
theorem C6_topup_meta_mismatch (gw : String → GatewayTx) (st : St)
    (uid : Nat) (ref : String)
    (h1 : (ref == "") = false) (h2 : (gw ref).ok = true)
    (h3 : (gw ref).metaPurpose ≠ "wallet_topup" ∨ (gw ref).metaUserId ≠ uid) :
    verifyAddFunds gw st uid ref = (st, .error .metaMismatch) ∧
    WalletErr.metaMismatch.httpStatus = 401 := by
  refine ⟨?_, rfl⟩
  unfold verifyAddFunds
  rw [if_neg (by simp [h1])]
  dsimp only
  rw [if_neg (by simp [h2]), if_pos h3]

/-- Claim C6 witness: the amended theorem at the concrete mismatched top-up. -/
theorem C6_topup_meta_mismatch_witness :
    verifyAddFunds c6Gw c6St 7 "TOPREF2" = (c6St, .error .metaMismatch) ∧
    WalletErr.metaMismatch.httpStatus = 401 :=
  C6_topup_meta_mismatch c6Gw c6St 7 "TOPREF2" rfl rfl (Or.inl (by decide))

/-! ## C7 — add-to-cart stock guard -/

/-- Claim C7, counterexample: with stock 5 and 3 already in the cart, adding 7
fails (7 + 3 > 5, so the claim applies), but the error message reports
the full stock 5, not the remaining addable amount 5 − 3 = 2 the claim
requires. -/
theorem C7_reported_amount_counterexample :
    (addItem c7St 7 1 7).2 = .error (.outOfStock 5) ∧
    CartErr.reported (.outOfStock 5) = some 5 ∧
    inCartQty c7St 7 1 = 3 ∧
    findProduct c7St 1 = some ⟨1, "Gadget", 100, "", 5⟩ ∧
    ((5 : Int) - 3 ≠ 5) := by
  refine ⟨rfl, rfl, rfl, rfl, by decide⟩

/-- Claim C7, amended: whenever the requested quantity plus the in-cart
quantity exceeds the product's stock, `addItem` fails with an
out-of-stock error and leaves the store unchanged; the reported number
is the remaining addable amount `stock − inCart` only when the requested
quantity alone fits the stock — when the requested quantity alone
exceeds stock the error reports the full stock instead.  The concrete
scenario of the claim holds: stock 5 with 3 in cart, adding 3 fails
reporting 2, and adding 2 instead succeeds leaving quantity 5. -/
theorem C7_addItem_out_of_stock :
    (∀ st uid pid qty p, 0 < qty → findProduct st pid = some p →
       p.stock < inCartQty st uid pid + qty →
       ∃ e, addItem st uid pid qty = (st, .error e) ∧
         CartErr.reported e =
           some (if p.stock < qty then p.stock
                 else p.stock - inCartQty st uid pid)) ∧
    ((addItem c7St 7 1 3).2 = .error (.outOfStockAdd 2) ∧
     (addItem c7St 7 1 3).1 = c7St ∧
     (addItem c7St 7 1 2).2 = .ok ⟨7, [⟨1, "Gadget", "", 100, 5⟩]⟩ ∧
     inCartQty (addItem c7St 7 1 2).1 7 1 = 5) := by
  constructor
  · intro st uid pid qty p hq hp hs
    unfold addItem
    rw [if_neg (not_le.mpr hq), hp]
    dsimp only
    by_cases hlt : p.stock < qty
    · rw [if_pos hlt]
      refine ⟨_, rfl, ?_⟩
      rw [if_pos hlt]
      rfl
    · rw [if_neg hlt]
      cases hc : findCart st uid with
      | none =>
          have hq0 : inCartQty st uid pid = 0 := by
            unfold inCartQty
            rw [hc]
          rw [hq0] at hs
          simp at hs
          exact absurd hs hlt
      | some cart =>
          dsimp only
          cases hit : cart.items.find? (fun it => it.product == pid) with
          | none =>
              have hq0 : inCartQty st uid pid = 0 := by
                unfold inCartQty
                rw [hc]
                dsimp only
                rw [hit]
              rw [hq0] at hs
              simp at hs
              exact absurd hs hlt
          | some existing =>
              have hqty : inCartQty st uid pid = existing.quantity := by
                unfold inCartQty
                rw [hc]
                dsimp only
                rw [hit]
              dsimp only
              rw [hqty] at hs
              rw [if_pos hs]
              refine ⟨_, rfl, ?_⟩
              rw [if_neg hlt, hqty]
              rfl
  · exact ⟨rfl, rfl, rfl, rfl⟩

/-- Claim C7 witness: the amended theorem at the concrete scenario — stock 5,
3 in cart, adding 3 — reporting 5 − 3 = 2. -/
theorem C7_addItem_out_of_stock_witness :
    ∃ e, addItem c7St 7 1 3 = (c7St, .error e) ∧
      CartErr.reported e =
        some (if (5 : Int) < 3 then (5 : Int) else 5 - inCartQty c7St 7 1) :=
  C7_addItem_out_of_stock.1 c7St 7 1 3 ⟨1, "Gadget", 100, "", 5⟩
    (by decide) rfl (by decide)

/-! ## C8 — admin fulfillment-status transitions -/

/-- Claim C8, counterexample: the order's current status is `delivered`, from
which the claimed transition system reaches nothing, yet the admin
update to `pending` succeeds and is persisted. -/
theorem C8_transition_counterexample :
    c8Ord.status = "delivered" ∧
    (updateOrderStatus c8St 1 "pending").2 = .ok { c8Ord with status := "pending" } ∧
    findOrder (updateOrderStatus c8St 1 "pending").1 1 =
      some { c8Ord with status := "pending" } := by
  refine ⟨rfl, rfl, rfl⟩

/-- Claim C8, amended: the admin status update validates the requested target
only against the fixed enumerated set
{pending, completed, shipped, delivered, cancelled}; any target in the
set is accepted from any current status (the current status is never
consulted), and only targets outside the set are rejected. -/
theorem C8_status_update_accepts_any_enum (st : St) (oid : Nat)
    (status : String) (o : Order)
    (hne : (status == "") = false) (ho : findOrder st oid = some o) :
    (allowedStatuses.contains status = true →
       updateOrderStatus st oid status =
         (updateOrder st oid (fun _ => { o with status := status }),
          .ok { o with status := status })) ∧
    (allowedStatuses.contains status = false →
       updateOrderStatus st oid status = (st, .error .invalidStatus)) := by
  constructor
  · intro hin
    unfold updateOrderStatus
    rw [if_neg (by simp [hne]), ho]
    dsimp only
    rw [if_neg (by simp only [not_not]; simpa using hin)]
  · intro hout
    unfold updateOrderStatus
    rw [if_neg (by simp [hne]), ho]
    dsimp only
    rw [if_pos (by simpa using hout)]

/-- Claim C8 witness: the amended theorem on the concrete
`delivered → pending` write. -/
theorem C8_status_update_witness :
    updateOrderStatus c8St 1 "pending" =
      (updateOrder c8St 1 (fun _ => { c8Ord with status := "pending" }),
       .ok { c8Ord with status := "pending" }) :=
  (C8_status_update_accepts_any_enum c8St 1 "pending" c8Ord rfl rfl).1 (by decide)

/-! ## C9 — cart state after order placement versus explicit clear -/

theorem removeFirstCart_find_none (uid : Nat) (l : List Cart)
    (h : noDupCartUsers l = true) :
    (removeFirstCart uid l).find? (fun c => c.user == uid) = none := by
  induction l with
  | nil => rfl
  | cons c rest ih =>
      unfold noDupCartUsers at h
      simp only [Bool.and_eq_true] at h
      obtain ⟨hall, hrest⟩ := h
      unfold removeFirstCart
      by_cases hc : (c.user == uid) = true
      · rw [if_pos hc]
        apply List.find?_eq_none.mpr
        intro d hd
        have hne := List.all_eq_true.mp hall d hd
        have hcu : c.user = uid := by simpa using hc
        simp only [bne_iff_ne] at hne
        simp [hcu ▸ hne]
      · rw [if_neg hc]
        rw [List.find?_cons_of_neg _ (by simpa using hc)]
        exact ih hrest

/-- Claim C9, counterexample: a successful order placement deletes the user's
cart document outright (`findOneAndDelete`): afterwards no cart document
exists for the user, while the explicit clear keeps the document with an
empty items array — refuting the claim that placement leaves an existing
emptied cart. -/
theorem C9_cart_deleted_counterexample :
    (∃ o, (createOrderRoute c9St 7 c9Req).2 = .ok o) ∧
    findCart c9St 7 = some ⟨7, [⟨1, "Gadget", "", 100, 2⟩]⟩ ∧
    findCart (createOrderRoute c9St 7 c9Req).1 7 = none ∧
    findCart (clearCart c9St 7).1 7 = some ⟨7, []⟩ := by
  refine ⟨⟨_, rfl⟩, rfl, rfl, rfl⟩

/-- Claim C9, amended: after every successful order placement the user's cart
document is deleted, so no cart is found for the user (given the
schema's one-cart-per-user uniqueness); the explicit clear operation
instead keeps the cart document and empties its items array.  Both end
with the user holding no cart items, but the document's existence
differs. -/
theorem C9_cart_after_checkout :
    (∀ st uid req st' o, noDupCartUsers st.carts = true →
       createOrderRoute st uid req = (st', .ok o) →
       findCart st' uid = none) ∧
    (∀ st uid cart, findCart st uid = some cart →
       (clearCart st uid).1 = updateCart st uid (fun c => { c with items := [] }) ∧
       findCart (clearCart st uid).1 uid = some { cart with items := [] }) := by
  constructor
  · intro st uid req st' o hnd h
    unfold createOrderRoute at h
    split at h
    · simp at h
    · split at h
      · simp at h
      · dsimp only at h
        simp only [Prod.mk.injEq] at h
        obtain ⟨h1, -⟩ := h
        subst h1
        unfold findCart
        show (removeFirstCart uid (decAllStock _ req.items).carts).find?
          (fun c => c.user == uid) = none
        rw [(decAllStock_frame req.items _).2.1]
        exact removeFirstCart_find_none uid st.carts hnd
  · intro st uid cart hc
    constructor
    · unfold clearCart
      rw [hc]
    · unfold clearCart
      rw [hc]
      exact findCart_updateCart st uid _ cart hc rfl

/-- Claim C9 witness: the amended theorem at the concrete successful order and
at the concrete explicit clear. -/
theorem C9_cart_after_checkout_witness :
    findCart (createOrderRoute c9St 7 c9Req).1 7 = none ∧
    ((clearCart c9St 7).1 = updateCart c9St 7 (fun c => { c with items := [] }) ∧
     findCart (clearCart c9St 7).1 7 =
       some { user := 7, items := ([] : List CartItem) }) :=
  ⟨C9_cart_after_checkout.1 c9St 7 c9Req (createOrderRoute c9St 7 c9Req).1
     ⟨0, 7, [⟨1, "Gadget", "", 100, 2⟩], 200, "Paystack", "pending", "pending", none⟩
     rfl rfl,
   C9_cart_after_checkout.2 c9St 7 ⟨7, [⟨1, "Gadget", "", 100, 2⟩]⟩ rfl⟩
